import Mathlib

set_option maxRecDepth 4000

/-!
Shallow embedding of the RSA key-pair layer of aws-c-cal:
src/source/rsa.c (generic dispatch layer, PKCS1 DER field mapper) and
src/source/darwin/securityframework_rsa.c (Security.framework backend).

Byte buffers are lists of byte values; size_t arithmetic is Nat arithmetic
modulo 2 ^ 64 where the source can wrap.  A C call that returns
AWS_OP_SUCCESS with a payload is `CalResult.ok`; a nonzero return is
`CalResult.fail r`, where `r` records the error raised via aws_raise_error
during the call (`none` means the call reported failure without raising,
leaving the thread's last raised error stale).
-/

/-- Error codes raised via aws_raise_error in the modelled sources. -/
inductive AwsError where
  | invalidArgument
  | invalidState
  | sysCallFailure
  | shortBuffer
  | bufferTooLargeForAlgorithm
  | unsupportedAlgorithm
  | missingRequiredKeyComponent
  | malformedAsn1Encountered
  | unsupportedKeyFormat
  | signatureValidationFailed
  deriving DecidableEq, Repr

/-- Result of a C call in the aws error model.  `ok` is AWS_OP_SUCCESS with a
payload; `fail r` is a nonzero return value where `r` is the error raised via
aws_raise_error during the call, and `fail none` is a failure return that did
not raise (the thread's last raised error is stale). -/
inductive CalResult (α : Type) where
  | ok : α → CalResult α
  | fail : Option AwsError → CalResult α
  deriving DecidableEq, Repr

/-- The fields of struct aws_rsa_key_pair (declared in the private header)
that the code under src reads: the key size, the two DER byte buffers and the
validity flag.  The struct is created with aws_mem_calloc, so every field the
constructors do not assign is zero. -/
structure aws_rsa_key_pair where
  key_size_in_bits : Nat
  priv : List Nat
  pub : List Nat
  good : Bool
  deriving DecidableEq, Repr

/-- enum aws_rsa_encryption_algorithm (public header): the three enumerators
the spec lists for encryption. -/
inductive aws_rsa_encryption_algorithm where
  | AWS_CAL_RSA_ENCRYPTION_PKCS1_5
  | AWS_CAL_RSA_ENCRYPTION_OAEP_SHA256
  | AWS_CAL_RSA_ENCRYPTION_OAEP_SHA512
  deriving DecidableEq, Repr

/-- enum aws_rsa_signing_algorithm (public header).  `unrecognized` stands for
an out-of-range integer value forced into the enum, which reaches the switch
default of the mapping function. -/
inductive aws_rsa_signing_algorithm where
  | AWS_CAL_RSA_SIGNATURE_PKCS1_5_SHA256
  | AWS_CAL_RSA_SIGNATURE_PSS_SHA256
  | unrecognized (value : Nat)
  deriving DecidableEq, Repr

/-- C size_t subtraction: unsigned 64-bit wrap-around arithmetic. -/
def size_t_sub (a b : Nat) : Nat :=
  (a % 2 ^ 64 + (2 ^ 64 - b % 2 ^ 64)) % 2 ^ 64

/-- aws_rsa_key_pair_max_encrypt_plaintext_size (src/source/rsa.c:86):
key_size_in_bytes - 11 for PKCS1-v1.5, key_size_in_bytes - 2*(256/8) - 2 for
OAEP-SHA256, key_size_in_bytes - 2*(512/8) - 2 for OAEP-SHA512, all in size_t
arithmetic.  (The switch default is unreachable for the three enumerators of
the modelled enum.) -/
def aws_rsa_key_pair_max_encrypt_plaintext_size
    (key_pair : aws_rsa_key_pair) (algorithm : aws_rsa_encryption_algorithm) : Nat :=
  let key_size_in_bytes := key_pair.key_size_in_bits / 8
  match algorithm with
  | .AWS_CAL_RSA_ENCRYPTION_PKCS1_5 =>
      size_t_sub key_size_in_bytes 11
  | .AWS_CAL_RSA_ENCRYPTION_OAEP_SHA256 =>
      size_t_sub (size_t_sub key_size_in_bytes (2 * (256 / 8))) 2
  | .AWS_CAL_RSA_ENCRYPTION_OAEP_SHA512 =>
      size_t_sub (size_t_sub key_size_in_bytes (2 * (512 / 8))) 2

/-- Modelled from the spec: aws_byte_buf from aws-c-common (external
collaborator): a byte buffer with a fixed capacity. -/
structure aws_byte_buf where
  data : List Nat
  capacity : Nat
  deriving DecidableEq, Repr

/-- Modelled from the spec: aws_byte_buf_append from aws-c-common (external
collaborator): appends bytes to the output buffer, failing with ShortBuffer
when the buffer cannot hold the result. -/
def aws_byte_buf_append (buf : aws_byte_buf) (src : List Nat) : CalResult aws_byte_buf :=
  if buf.capacity < buf.data.length + src.length then
    .fail (some .shortBuffer)
  else
    .ok ⟨buf.data ++ src, buf.capacity⟩

/-- aws_rsa_key_pair_encrypt (src/source/rsa.c:107): plaintext-size check
first, then the validity gate, then dispatch through the vtable slot (passed
here as `vtable_encrypt`, the backend bound at construction). -/
def aws_rsa_key_pair_encrypt
    (vtable_encrypt : aws_rsa_key_pair → aws_rsa_encryption_algorithm →
      List Nat → aws_byte_buf → CalResult aws_byte_buf)
    (key_pair : aws_rsa_key_pair) (algorithm : aws_rsa_encryption_algorithm)
    (plaintext : List Nat) (out : aws_byte_buf) : CalResult aws_byte_buf :=
  if aws_rsa_key_pair_max_encrypt_plaintext_size key_pair algorithm < plaintext.length then
    .fail (some .bufferTooLargeForAlgorithm)
  else if key_pair.good then
    vtable_encrypt key_pair algorithm plaintext out
  else
    .fail (some .invalidState)

/-- aws_rsa_key_pair_decrypt (src/source/rsa.c:125): ciphertext length must
equal key_size_in_bits / 8, then the validity gate, then vtable dispatch. -/
def aws_rsa_key_pair_decrypt
    (vtable_decrypt : aws_rsa_key_pair → aws_rsa_encryption_algorithm →
      List Nat → aws_byte_buf → CalResult aws_byte_buf)
    (key_pair : aws_rsa_key_pair) (algorithm : aws_rsa_encryption_algorithm)
    (ciphertext : List Nat) (out : aws_byte_buf) : CalResult aws_byte_buf :=
  if ciphertext.length ≠ key_pair.key_size_in_bits / 8 then
    .fail (some .invalidArgument)
  else if key_pair.good then
    vtable_decrypt key_pair algorithm ciphertext out
  else
    .fail (some .invalidState)

/-- aws_rsa_key_pair_sign_message (src/source/rsa.c:143): validity gate, then
vtable dispatch; no size precondition of its own. -/
def aws_rsa_key_pair_sign_message
    (vtable_sign : aws_rsa_key_pair → aws_rsa_signing_algorithm →
      List Nat → aws_byte_buf → CalResult aws_byte_buf)
    (key_pair : aws_rsa_key_pair) (algorithm : aws_rsa_signing_algorithm)
    (message : List Nat) (signature : aws_byte_buf) : CalResult aws_byte_buf :=
  if key_pair.good then
    vtable_sign key_pair algorithm message signature
  else
    .fail (some .invalidState)

/-- aws_rsa_key_pair_verify_signature (src/source/rsa.c:156): validity gate,
then vtable dispatch. -/
def aws_rsa_key_pair_verify_signature
    (vtable_verify : aws_rsa_key_pair → aws_rsa_signing_algorithm →
      List Nat → List Nat → CalResult Unit)
    (key_pair : aws_rsa_key_pair) (algorithm : aws_rsa_signing_algorithm)
    (message : List Nat) (signature : List Nat) : CalResult Unit :=
  if key_pair.good then
    vtable_verify key_pair algorithm message signature
  else
    .fail (some .invalidState)

/-- aws_rsa_key_pair_get_public_key (src/source/rsa.c:181): if the key pair is
good, return a cursor over the stored public DER bytes, else InvalidState. -/
def aws_rsa_key_pair_get_public_key (key_pair : aws_rsa_key_pair) : CalResult (List Nat) :=
  if key_pair.good then
    .ok key_pair.pub
  else
    .fail (some .invalidState)

/-- aws_rsa_key_pair_get_private_key (src/source/rsa.c:192): if the key pair
is good, return a cursor over the stored private DER bytes, else
InvalidState. -/
def aws_rsa_key_pair_get_private_key (key_pair : aws_rsa_key_pair) : CalResult (List Nat) :=
  if key_pair.good then
    .ok key_pair.priv
  else
    .fail (some .invalidState)

/-- Observable steps of aws_rsa_key_pair_destroy.  `backend_destroy b` is the
vtable destroy invocation, with `b` recording whether the backend teardown
went through without issues. -/
inductive TeardownStep where
  | secure_zero_and_free_priv
  | secure_zero_and_free_pub
  | backend_destroy (backend_ok : Bool)
  deriving DecidableEq, Repr

/-- The outcome of aws_rsa_key_pair_destroy: the ordered steps taken and the
contents of the two key byte buffers after teardown. -/
structure DestroyOutcome where
  steps : List TeardownStep
  priv_after : List Nat
  pub_after : List Nat
  deriving DecidableEq, Repr

/-- aws_rsa_key_pair_destroy (src/source/rsa.c:65), the callback run when the
reference count reaches zero: aws_byte_buf_clean_up_secure on priv, then on
pub, then the vtable destroy.  The source sequence does not branch on the
backend destroy outcome `backend_ok`. -/
def aws_rsa_key_pair_destroy (backend_ok : Bool) (_key_pair : aws_rsa_key_pair) :
    DestroyOutcome :=
  ⟨[.secure_zero_and_free_priv, .secure_zero_and_free_pub, .backend_destroy backend_ok],
    [], []⟩

/-- DER node tags relevant to the PKCS1 mapper; `other` covers every further
tag value of the external tokenizer. -/
inductive DerTag where
  | SEQUENCE
  | INTEGER
  | other (tag : Nat)
  deriving DecidableEq, Repr

/-- Modelled from the spec: a tag-length-value node produced by the external
DER/ASN.1 tokenizer (aws_der_decoder, whose source is not under src). -/
structure DerNode where
  tag : DerTag
  content : List Nat
  deriving DecidableEq, Repr

/-- Modelled from the spec: aws_der_decoder_tlv_integer (external tokenizer)
yields the content bytes of the current node and fails unless its tag is
INTEGER.  The decoder state is the list of not-yet-consumed nodes;
aws_der_decoder_next succeeds exactly when that list is nonempty. -/
def aws_der_decoder_tlv_integer (node : DerNode) : Option (List Nat) :=
  if node.tag = DerTag.INTEGER then some node.content else none

/-- One advance-and-read step of the mapper: aws_der_decoder_next followed by
aws_der_decoder_tlv_integer, failing with MalformedEncoding when the stream is
exhausted or the node has the wrong tag (the `!next || tlv_integer` pattern of
src/source/rsa.c). -/
def der_read_integer (d : List DerNode) : CalResult (List Nat × List DerNode) :=
  match d with
  | [] => .fail (some .malformedAsn1Encountered)
  | node :: rest =>
    match aws_der_decoder_tlv_integer node with
    | none => .fail (some .malformedAsn1Encountered)
    | some cur => .ok (cur, rest)

/-- struct s_rsa_private_key_pkcs1 (private header): the PKCS1 private-key
fields filled in by the mapper. -/
structure s_rsa_private_key_pkcs1 where
  version : Nat
  modulus : List Nat
  publicExponent : List Nat
  privateExponent : List Nat
  prime1 : List Nat
  prime2 : List Nat
  exponent1 : List Nat
  exponent2 : List Nat
  coefficient : List Nat
  deriving DecidableEq, Repr

/-- aws_der_decoder_load_private_rsa_pkcs1 (src/source/rsa.c:203): expects a
SEQUENCE, then nine INTEGER nodes in order (version, modulus, publicExponent,
privateExponent, prime1, prime2, exponent1, exponent2, coefficient); the
version must have encoded length exactly 1 with byte value 0, else
UnsupportedKeyFormat; a missing or wrongly tagged node is MalformedEncoding. -/
def aws_der_decoder_load_private_rsa_pkcs1 (d : List DerNode) :
    CalResult s_rsa_private_key_pkcs1 :=
  match d with
  | [] => .fail (some .malformedAsn1Encountered)
  | node :: d0 =>
    if node.tag ≠ DerTag.SEQUENCE then .fail (some .malformedAsn1Encountered)
    else
      match der_read_integer d0 with
      | .fail e => .fail e
      | .ok (version_cur, d1) =>
        if version_cur.length ≠ 1 ∨ version_cur.headD 0 ≠ 0 then
          .fail (some .unsupportedKeyFormat)
        else
          match der_read_integer d1 with
          | .fail e => .fail e
          | .ok (modulus, d2) =>
            match der_read_integer d2 with
            | .fail e => .fail e
            | .ok (publicExponent, d3) =>
              match der_read_integer d3 with
              | .fail e => .fail e
              | .ok (privateExponent, d4) =>
                match der_read_integer d4 with
                | .fail e => .fail e
                | .ok (prime1, d5) =>
                  match der_read_integer d5 with
                  | .fail e => .fail e
                  | .ok (prime2, d6) =>
                    match der_read_integer d6 with
                    | .fail e => .fail e
                    | .ok (exponent1, d7) =>
                      match der_read_integer d7 with
                      | .fail e => .fail e
                      | .ok (exponent2, d8) =>
                        match der_read_integer d8 with
                        | .fail e => .fail e
                        | .ok (coefficient, _) =>
                          .ok ⟨0, modulus, publicExponent, privateExponent,
                            prime1, prime2, exponent1, exponent2, coefficient⟩

/-- A token stream that starts with a SEQUENCE node followed by nine INTEGER
nodes, written from the spec sentence describing the PKCS1 private form, for
comparison with the mapper above. -/
def private_pkcs1_stream (s v mo ex pr q1 q2 x1 x2 co : List Nat)
    (rest : List DerNode) : List DerNode :=
  ⟨.SEQUENCE, s⟩ :: ⟨.INTEGER, v⟩ :: ⟨.INTEGER, mo⟩ :: ⟨.INTEGER, ex⟩ ::
    ⟨.INTEGER, pr⟩ :: ⟨.INTEGER, q1⟩ :: ⟨.INTEGER, q2⟩ :: ⟨.INTEGER, x1⟩ ::
    ⟨.INTEGER, x2⟩ :: ⟨.INTEGER, co⟩ :: rest

/-- Provider key-algorithm constants selected by the mapping functions of the
darwin backend (kSecKeyAlgorithm globals). -/
inductive SecKeyAlgorithm where
  | rsaEncryptionPKCS1
  | rsaEncryptionOAEPSHA256
  | rsaEncryptionOAEPSHA512
  | rsaSignatureDigestPKCS1v15SHA256
  | rsaSignatureDigestPSSSHA256
  deriving DecidableEq, Repr

/-- Provider operation kinds (kSecKeyOperationType constants). -/
inductive SecKeyOperationType where
  | encrypt
  | decrypt
  | sign
  | verify
  deriving DecidableEq, Repr

/-- Modelled from the spec: the native cryptographic provider
(Security.framework), an external collaborator behind opaque key handles
(Nat).  `isAlgorithmSupported` is SecKeyIsAlgorithmSupported (its key argument
may be a NULL reference, hence Option); `createDecryptedData`,
`createSignature` and `verifySignature` either produce a CFError (modelled as
`Except.error ()`) or return their result. -/
structure SecProvider where
  isAlgorithmSupported : Option Nat → SecKeyOperationType → SecKeyAlgorithm → Bool
  createDecryptedData : Nat → SecKeyAlgorithm → List Nat → Except Unit (List Nat)
  createSignature : Nat → SecKeyAlgorithm → List Nat → Except Unit (List Nat)
  verifySignature : Nat → SecKeyAlgorithm → List Nat → List Nat → Except Unit Bool

/-- struct sec_rsa_key_pair (securityframework_rsa.c:13): the base entity plus
the two provider key handles (NULL modelled as none). -/
structure sec_rsa_key_pair where
  base : aws_rsa_key_pair
  priv_key_ref : Option Nat
  pub_key_ref : Option Nat
  deriving DecidableEq, Repr

/-- s_map_rsa_encryption_algo_to_sec (securityframework_rsa.c:46): total on
the three enumerators; every branch raises nothing and succeeds. -/
def s_map_rsa_encryption_algo_to_sec (algorithm : aws_rsa_encryption_algorithm) :
    CalResult SecKeyAlgorithm :=
  match algorithm with
  | .AWS_CAL_RSA_ENCRYPTION_PKCS1_5 => .ok .rsaEncryptionPKCS1
  | .AWS_CAL_RSA_ENCRYPTION_OAEP_SHA256 => .ok .rsaEncryptionOAEPSHA256
  | .AWS_CAL_RSA_ENCRYPTION_OAEP_SHA512 => .ok .rsaEncryptionOAEPSHA512

/-- s_map_rsa_signing_algo_to_sec (securityframework_rsa.c:67).
`macos_10_13_available` is the __builtin_available(macos 10.13, ...) test.
When PSS-SHA256 is requested and unavailable, the source executes
`return AWS_ERROR_CAL_UNSUPPORTED_ALGORITHM;` - it returns the raw nonzero
error code WITHOUT calling aws_raise_error, so the call fails with the
thread's raised error left stale: `.fail none`.  The switch default does
raise: `.fail (some .unsupportedAlgorithm)`. -/
def s_map_rsa_signing_algo_to_sec (algorithm : aws_rsa_signing_algorithm)
    (macos_10_13_available : Bool) : CalResult SecKeyAlgorithm :=
  match algorithm with
  | .AWS_CAL_RSA_SIGNATURE_PKCS1_5_SHA256 => .ok .rsaSignatureDigestPKCS1v15SHA256
  | .AWS_CAL_RSA_SIGNATURE_PSS_SHA256 =>
      if macos_10_13_available then .ok .rsaSignatureDigestPSSSHA256
      else .fail none
  | .unrecognized _ => .fail (some .unsupportedAlgorithm)

/-- s_rsa_decrypt (securityframework_rsa.c:142): missing-private-key check,
algorithm mapping (a mapping failure is propagated by `return AWS_OP_ERR`
without raising anything further), provider support check - performed against
the public key reference, as in the source -, provider decrypt (CFError
becomes SystemCallFailure), append to out (ShortBuffer on overflow). -/
def s_rsa_decrypt (P : SecProvider) (key_pair : sec_rsa_key_pair)
    (algorithm : aws_rsa_encryption_algorithm) (ciphertext : List Nat)
    (out : aws_byte_buf) : CalResult aws_byte_buf :=
  match key_pair.priv_key_ref with
  | none => .fail (some .missingRequiredKeyComponent)
  | some priv_key =>
    match s_map_rsa_encryption_algo_to_sec algorithm with
    | .fail r => .fail r
    | .ok alg =>
      if ¬ P.isAlgorithmSupported key_pair.pub_key_ref .decrypt alg then
        .fail (some .unsupportedAlgorithm)
      else
        match P.createDecryptedData priv_key alg ciphertext with
        | .error _ => .fail (some .sysCallFailure)
        | .ok plaintext_cur => aws_byte_buf_append out plaintext_cur

/-- s_rsa_sign (securityframework_rsa.c:199): missing-private-key check,
signing-algorithm mapping (failure propagated without raising further),
provider support check against the private key, provider sign (CFError
becomes SystemCallFailure), append to out. -/
def s_rsa_sign (P : SecProvider) (macos_10_13_available : Bool)
    (key_pair : sec_rsa_key_pair) (algorithm : aws_rsa_signing_algorithm)
    (digest : List Nat) (out : aws_byte_buf) : CalResult aws_byte_buf :=
  match key_pair.priv_key_ref with
  | none => .fail (some .missingRequiredKeyComponent)
  | some priv_key =>
    match s_map_rsa_signing_algo_to_sec algorithm macos_10_13_available with
    | .fail r => .fail r
    | .ok alg =>
      if ¬ P.isAlgorithmSupported (some priv_key) .sign alg then
        .fail (some .unsupportedAlgorithm)
      else
        match P.createSignature priv_key alg digest with
        | .error _ => .fail (some .sysCallFailure)
        | .ok signature_cur => aws_byte_buf_append out signature_cur

/-- s_rsa_verify (securityframework_rsa.c:256): missing-public-key check,
signing-algorithm mapping (failure propagated without raising further),
provider support check against the public key, then SecKeyVerifySignature: a
CFError becomes SystemCallFailure, a false result becomes
SignatureValidationFailed, a true result is success. -/
def s_rsa_verify (P : SecProvider) (macos_10_13_available : Bool)
    (key_pair : sec_rsa_key_pair) (algorithm : aws_rsa_signing_algorithm)
    (digest : List Nat) (signature : List Nat) : CalResult Unit :=
  match key_pair.pub_key_ref with
  | none => .fail (some .missingRequiredKeyComponent)
  | some pub_key =>
    match s_map_rsa_signing_algo_to_sec algorithm macos_10_13_available with
    | .fail r => .fail r
    | .ok alg =>
      if ¬ P.isAlgorithmSupported (some pub_key) .verify alg then
        .fail (some .unsupportedAlgorithm)
      else
        match P.verifySignature pub_key alg digest signature with
        | .error _ => .fail (some .sysCallFailure)
        | .ok result => if result then .ok () else .fail (some .signatureValidationFailed)

/-- The field assignments performed on the success path of
aws_rsa_key_pair_new_from_public_key_pkcs1_impl (securityframework_rsa.c:481):
the struct comes from aws_mem_calloc (all fields zero, so good = false, priv
empty, priv_key_ref NULL), the public DER bytes are copied into base.pub, the
provider public key handle is stored, and key_size_in_bits is set to the
provider block size times 8.  No statement in the constructor ever assigns
base.good. -/
def aws_rsa_key_pair_new_from_public_key_pkcs1_success
    (key : List Nat) (pub_handle : Nat) (provider_block_size : Nat) : sec_rsa_key_pair :=
  ⟨⟨provider_block_size * 8, [], key, false⟩, none, some pub_handle⟩

/-- The darwin backend sign operation as reached through the generic dispatch
layer: aws_rsa_key_pair_sign_message with the vtable slot bound to
s_rsa_sign, as s_rsa_key_pair_vtable does (securityframework_rsa.c:297). -/
def darwin_sign_message (P : SecProvider) (macos_10_13_available : Bool)
    (key_pair : sec_rsa_key_pair) (algorithm : aws_rsa_signing_algorithm)
    (message : List Nat) (signature : aws_byte_buf) : CalResult aws_byte_buf :=
  aws_rsa_key_pair_sign_message
    (fun _ a m s => s_rsa_sign P macos_10_13_available key_pair a m s)
    key_pair.base algorithm message signature

/-- The darwin backend decrypt operation as reached through the generic
dispatch layer: aws_rsa_key_pair_decrypt with the vtable slot bound to
s_rsa_decrypt. -/
def darwin_decrypt (P : SecProvider) (key_pair : sec_rsa_key_pair)
    (algorithm : aws_rsa_encryption_algorithm) (ciphertext : List Nat)
    (out : aws_byte_buf) : CalResult aws_byte_buf :=
  aws_rsa_key_pair_decrypt
    (fun _ a c o => s_rsa_decrypt P key_pair a c o)
    key_pair.base algorithm ciphertext out

/-- The darwin backend verify operation as reached through the generic
dispatch layer: aws_rsa_key_pair_verify_signature with the vtable slot bound
to s_rsa_verify. -/
def darwin_verify (P : SecProvider) (macos_10_13_available : Bool)
    (key_pair : sec_rsa_key_pair) (algorithm : aws_rsa_signing_algorithm)
    (digest : List Nat) (signature : List Nat) : CalResult Unit :=
  aws_rsa_key_pair_verify_signature
    (fun _ a d s => s_rsa_verify P macos_10_13_available key_pair a d s)
    key_pair.base algorithm digest signature

/-- A valid 2048-bit key pair state used to instantiate theorems. -/
def kp_2048 : aws_rsa_key_pair := ⟨2048, [], [], true⟩

/-- An invalid (good = false) 2048-bit key pair state. -/
def kp_2048_invalid : aws_rsa_key_pair := ⟨2048, [], [], false⟩

/-- A vtable encrypt/decrypt slot that succeeds without touching anything,
used to show the dispatch layer rejects before the backend can run. -/
def encrypt_vtable_stub : aws_rsa_key_pair → aws_rsa_encryption_algorithm →
    List Nat → aws_byte_buf → CalResult aws_byte_buf :=
  fun _ _ _ out => .ok out

/-- An output buffer with room for one RSA block. -/
def out_buf_256 : aws_byte_buf := ⟨[], 256⟩

/-- C2: whenever the computed max plaintext size for the algorithm is smaller
than the plaintext length, aws_rsa_key_pair_encrypt fails with
BufferTooLargeForAlgorithm, for EVERY bound backend - so the backend is never
dispatched to. -/
theorem c2_encrypt_rejects_oversized_plaintext
    (vtable_encrypt : aws_rsa_key_pair → aws_rsa_encryption_algorithm →
      List Nat → aws_byte_buf → CalResult aws_byte_buf)
    (key_pair : aws_rsa_key_pair) (algorithm : aws_rsa_encryption_algorithm)
    (plaintext : List Nat) (out : aws_byte_buf)
    (h : aws_rsa_key_pair_max_encrypt_plaintext_size key_pair algorithm <
      plaintext.length) :
    aws_rsa_key_pair_encrypt vtable_encrypt key_pair algorithm plaintext out =
      CalResult.fail (some AwsError.bufferTooLargeForAlgorithm) := by
  simp [aws_rsa_key_pair_encrypt, h]

/-- Witness for c2_encrypt_rejects_oversized_plaintext: a plaintext of length
maxPlaintextSize + 1 = 246 on a 2048-bit key with PKCS1v1.5. -/
theorem c2_encrypt_rejects_oversized_plaintext_witness :
    aws_rsa_key_pair_max_encrypt_plaintext_size kp_2048
        .AWS_CAL_RSA_ENCRYPTION_PKCS1_5 + 1 = 246 ∧
    aws_rsa_key_pair_encrypt encrypt_vtable_stub kp_2048
        .AWS_CAL_RSA_ENCRYPTION_PKCS1_5 (List.replicate 246 0) out_buf_256 =
      CalResult.fail (some AwsError.bufferTooLargeForAlgorithm) :=
  ⟨by decide, c2_encrypt_rejects_oversized_plaintext _ _ _ _ _ (by decide)⟩

/-- C3: whenever the ciphertext length differs from keySizeBits/8,
aws_rsa_key_pair_decrypt fails with InvalidArgument, for EVERY bound backend -
so the backend is never invoked. -/
theorem c3_decrypt_rejects_wrong_block_length
    (vtable_decrypt : aws_rsa_key_pair → aws_rsa_encryption_algorithm →
      List Nat → aws_byte_buf → CalResult aws_byte_buf)
    (key_pair : aws_rsa_key_pair) (algorithm : aws_rsa_encryption_algorithm)
    (ciphertext : List Nat) (out : aws_byte_buf)
    (h : ciphertext.length ≠ key_pair.key_size_in_bits / 8) :
    aws_rsa_key_pair_decrypt vtable_decrypt key_pair algorithm ciphertext out =
      CalResult.fail (some AwsError.invalidArgument) := by
  simp [aws_rsa_key_pair_decrypt, h]

/-- Witness for c3_decrypt_rejects_wrong_block_length: a 1-byte ciphertext on
a 2048-bit key (block size 256). -/
theorem c3_decrypt_rejects_wrong_block_length_witness :
    kp_2048.key_size_in_bits / 8 = 256 ∧
    aws_rsa_key_pair_decrypt encrypt_vtable_stub kp_2048
        .AWS_CAL_RSA_ENCRYPTION_PKCS1_5 [0] out_buf_256 =
      CalResult.fail (some AwsError.invalidArgument) :=
  ⟨by decide, c3_decrypt_rejects_wrong_block_length _ _ _ _ _ (by decide)⟩

/-- C10: on a key pair that is not valid, the buffer-size validation of
encrypt and decrypt still runs first: an oversized plaintext yields
BufferTooLargeForAlgorithm and a wrong-length ciphertext yields
InvalidArgument (never InvalidState), while InvalidState is raised exactly
when the size check passes. -/
theorem c10_size_checks_precede_validity_gate
    (vtable_encrypt vtable_decrypt : aws_rsa_key_pair →
      aws_rsa_encryption_algorithm → List Nat → aws_byte_buf → CalResult aws_byte_buf)
    (key_pair : aws_rsa_key_pair) (hgood : key_pair.good = false) :
    (∀ algorithm plaintext out,
      aws_rsa_key_pair_max_encrypt_plaintext_size key_pair algorithm < plaintext.length →
      aws_rsa_key_pair_encrypt vtable_encrypt key_pair algorithm plaintext out =
        CalResult.fail (some AwsError.bufferTooLargeForAlgorithm)) ∧
    (∀ algorithm ciphertext out, ciphertext.length ≠ key_pair.key_size_in_bits / 8 →
      aws_rsa_key_pair_decrypt vtable_decrypt key_pair algorithm ciphertext out =
        CalResult.fail (some AwsError.invalidArgument)) ∧
    (∀ algorithm plaintext out,
      ¬ aws_rsa_key_pair_max_encrypt_plaintext_size key_pair algorithm < plaintext.length →
      aws_rsa_key_pair_encrypt vtable_encrypt key_pair algorithm plaintext out =
        CalResult.fail (some AwsError.invalidState)) ∧
    (∀ algorithm ciphertext out, ciphertext.length = key_pair.key_size_in_bits / 8 →
      aws_rsa_key_pair_decrypt vtable_decrypt key_pair algorithm ciphertext out =
        CalResult.fail (some AwsError.invalidState)) := by
  refine ⟨fun a p o h => ?_, fun a c o h => ?_, fun a p o h => ?_, fun a c o h => ?_⟩ <;>
    simp [aws_rsa_key_pair_encrypt, aws_rsa_key_pair_decrypt, h, hgood]

/-- Witness for c10_size_checks_precede_validity_gate on an invalid 2048-bit
key pair. -/
theorem c10_size_checks_precede_validity_gate_witness :
    aws_rsa_key_pair_encrypt encrypt_vtable_stub kp_2048_invalid
        .AWS_CAL_RSA_ENCRYPTION_PKCS1_5 (List.replicate 246 0) out_buf_256 =
      CalResult.fail (some AwsError.bufferTooLargeForAlgorithm) ∧
    aws_rsa_key_pair_decrypt encrypt_vtable_stub kp_2048_invalid
        .AWS_CAL_RSA_ENCRYPTION_PKCS1_5 [0] out_buf_256 =
      CalResult.fail (some AwsError.invalidArgument) ∧
    aws_rsa_key_pair_decrypt encrypt_vtable_stub kp_2048_invalid
        .AWS_CAL_RSA_ENCRYPTION_PKCS1_5 (List.replicate 256 0) out_buf_256 =
      CalResult.fail (some AwsError.invalidState) := by
  have h := c10_size_checks_precede_validity_gate encrypt_vtable_stub
    encrypt_vtable_stub kp_2048_invalid rfl
  exact ⟨h.1 _ _ _ (by decide), h.2.1 _ _ _ (by decide), h.2.2.2 _ _ _ (by decide)⟩

/-- A valid key pair state whose private buffer was never populated. -/
def valid_public_only_key_pair : aws_rsa_key_pair := ⟨2048, [], [48, 130], true⟩

/-- C6 (counterexample): on a valid key pair whose private half was never
populated, aws_rsa_key_pair_get_private_key succeeds with an empty view
instead of failing with MissingKeyComponent. -/
theorem c6_get_private_key_no_missing_component_check :
    valid_public_only_key_pair.priv = [] ∧
    aws_rsa_key_pair_get_private_key valid_public_only_key_pair ≠
      CalResult.fail (some AwsError.missingRequiredKeyComponent) ∧
    aws_rsa_key_pair_get_private_key valid_public_only_key_pair =
      CalResult.ok [] := by
  refine ⟨rfl, by decide, rfl⟩

/-- C6 (amended): aws_rsa_key_pair_get_public_key and
aws_rsa_key_pair_get_private_key return a view over the stored DER bytes
(possibly empty) whenever the key pair is valid and fail with InvalidState
when it is not; they check only the validity flag and never fail with
MissingKeyComponent. -/
theorem c6_get_key_validity_gate_only (key_pair : aws_rsa_key_pair) :
    (key_pair.good = true →
      aws_rsa_key_pair_get_public_key key_pair = CalResult.ok key_pair.pub ∧
      aws_rsa_key_pair_get_private_key key_pair = CalResult.ok key_pair.priv) ∧
    (key_pair.good = false →
      aws_rsa_key_pair_get_public_key key_pair =
        CalResult.fail (some AwsError.invalidState) ∧
      aws_rsa_key_pair_get_private_key key_pair =
        CalResult.fail (some AwsError.invalidState)) ∧
    aws_rsa_key_pair_get_public_key key_pair ≠
      CalResult.fail (some AwsError.missingRequiredKeyComponent) ∧
    aws_rsa_key_pair_get_private_key key_pair ≠
      CalResult.fail (some AwsError.missingRequiredKeyComponent) := by
  cases hg : key_pair.good <;>
    refine ⟨fun h => ?_, fun h => ?_, ?_, ?_⟩ <;>
      simp_all [aws_rsa_key_pair_get_public_key, aws_rsa_key_pair_get_private_key]

/-- Witness for c6_get_key_validity_gate_only at a concrete valid key pair. -/
theorem c6_get_key_validity_gate_only_witness :
    aws_rsa_key_pair_get_private_key valid_public_only_key_pair =
      CalResult.ok [] ∧
    aws_rsa_key_pair_get_public_key valid_public_only_key_pair =
      CalResult.ok [48, 130] :=
  ⟨((c6_get_key_validity_gate_only valid_public_only_key_pair).1 rfl).2,
   ((c6_get_key_validity_gate_only valid_public_only_key_pair).1 rfl).1⟩

/-- C7 (counterexample): teardown does NOT invoke the backend destroy
operation first: the first step of aws_rsa_key_pair_destroy is the secure
zero-fill of the private key buffer, and the backend destroy comes last. -/
theorem c7_destroy_wipes_before_backend_destroy :
    (aws_rsa_key_pair_destroy true kp_2048).steps.head? ≠
      some (TeardownStep.backend_destroy true) ∧
    (aws_rsa_key_pair_destroy false kp_2048).steps.head? ≠
      some (TeardownStep.backend_destroy false) ∧
    (aws_rsa_key_pair_destroy true kp_2048).steps.head? =
      some TeardownStep.secure_zero_and_free_priv := by
  refine ⟨by decide, by decide, rfl⟩

/-- C7 (amended): when the reference count reaches zero, teardown first
unconditionally zero-fills and frees both key byte buffers (private, then
public) and only then invokes the backend destroy operation; the wipe step
precedes the backend destroy and therefore happens regardless of whether the
backend destroy step encounters issues. -/
theorem c7_destroy_order (backend_ok : Bool) (key_pair : aws_rsa_key_pair) :
    (aws_rsa_key_pair_destroy backend_ok key_pair).steps =
      [TeardownStep.secure_zero_and_free_priv, TeardownStep.secure_zero_and_free_pub,
        TeardownStep.backend_destroy backend_ok] ∧
    (aws_rsa_key_pair_destroy backend_ok key_pair).priv_after = [] ∧
    (aws_rsa_key_pair_destroy backend_ok key_pair).pub_after = [] :=
  ⟨rfl, rfl, rfl⟩

/-- C8: on a platform where PSS-SHA256 is recognized but unavailable
(pre-10.13 macOS), s_map_rsa_signing_algo_to_sec fails WITHOUT raising
UnsupportedAlgorithm - it returns the raw error code, leaving the raised
error condition stale (`CalResult.fail none`) - while the unrecognized-enum
default path does raise UnsupportedAlgorithm, and the available case
succeeds. -/
theorem c8_pss_unavailable_error_not_raised :
    s_map_rsa_signing_algo_to_sec .AWS_CAL_RSA_SIGNATURE_PSS_SHA256 false =
      CalResult.fail none ∧
    s_map_rsa_signing_algo_to_sec .AWS_CAL_RSA_SIGNATURE_PSS_SHA256 false ≠
      CalResult.fail (some AwsError.unsupportedAlgorithm) ∧
    s_map_rsa_signing_algo_to_sec (.unrecognized 7) true =
      CalResult.fail (some AwsError.unsupportedAlgorithm) ∧
    s_map_rsa_signing_algo_to_sec (.unrecognized 7) false =
      CalResult.fail (some AwsError.unsupportedAlgorithm) ∧
    s_map_rsa_signing_algo_to_sec .AWS_CAL_RSA_SIGNATURE_PSS_SHA256 true =
      CalResult.ok .rsaSignatureDigestPSSSHA256 := by
  refine ⟨rfl, by decide, rfl, rfl, rfl⟩

/-- A provider whose primitive calls all succeed. -/
def sec_provider_stub : SecProvider :=
  ⟨fun _ _ _ => true, fun _ _ _ => Except.ok [0], fun _ _ _ => Except.ok [0],
   fun _ _ _ _ => Except.ok true⟩

/-- A 2048-bit key pair as built by importPublic (public half only). -/
def public_only_key_pair : sec_rsa_key_pair :=
  aws_rsa_key_pair_new_from_public_key_pkcs1_success [48, 130, 1, 10] 1 256

/-- The same public-only key pair with the validity flag forced to true, as
the spec intends successful construction to leave it. -/
def public_only_key_pair_marked_valid : sec_rsa_key_pair :=
  ⟨⟨2048, [], [48, 130, 1, 10], true⟩, none, some 1⟩

/-- C5: a key pair built by importPublic has good = false (no constructor
ever assigns it), so sign and decrypt through the public dispatch layer fail
with InvalidState, not MissingKeyComponent; the backend operations s_rsa_sign
and s_rsa_decrypt do perform their own MissingKeyComponent check, and with
the validity flag set as the spec intends, the dispatched operations would
fail with MissingKeyComponent as claimed. -/
theorem c5_public_only_sign_decrypt_invalid_state :
    darwin_sign_message sec_provider_stub true public_only_key_pair
        .AWS_CAL_RSA_SIGNATURE_PKCS1_5_SHA256 [1, 2, 3] out_buf_256 =
      CalResult.fail (some AwsError.invalidState) ∧
    darwin_decrypt sec_provider_stub public_only_key_pair
        .AWS_CAL_RSA_ENCRYPTION_PKCS1_5 (List.replicate 256 0) out_buf_256 =
      CalResult.fail (some AwsError.invalidState) ∧
    s_rsa_sign sec_provider_stub true public_only_key_pair
        .AWS_CAL_RSA_SIGNATURE_PKCS1_5_SHA256 [1, 2, 3] out_buf_256 =
      CalResult.fail (some AwsError.missingRequiredKeyComponent) ∧
    s_rsa_decrypt sec_provider_stub public_only_key_pair
        .AWS_CAL_RSA_ENCRYPTION_PKCS1_5 (List.replicate 256 0) out_buf_256 =
      CalResult.fail (some AwsError.missingRequiredKeyComponent) ∧
    darwin_sign_message sec_provider_stub true public_only_key_pair_marked_valid
        .AWS_CAL_RSA_SIGNATURE_PKCS1_5_SHA256 [1, 2, 3] out_buf_256 =
      CalResult.fail (some AwsError.missingRequiredKeyComponent) ∧
    darwin_decrypt sec_provider_stub public_only_key_pair_marked_valid
        .AWS_CAL_RSA_ENCRYPTION_PKCS1_5 (List.replicate 256 0) out_buf_256 =
      CalResult.fail (some AwsError.missingRequiredKeyComponent) :=
  ⟨rfl, rfl, rfl, rfl, rfl, rfl⟩

/-- C9: on a valid key pair with a public half, for a signing algorithm the
mapping resolves and the provider supports, s_rsa_verify reached through the
dispatch layer surfaces a provider mismatch verdict as exactly
SignatureValidationFailed, a provider-internal error (CFError) as exactly
SystemCallFailure, and a matching verdict as success - provider errors are
never swallowed or replaced by an unrelated error. -/
theorem c9_verify_error_surfacing
    (P : SecProvider) (macos_10_13_available : Bool) (key_pair : sec_rsa_key_pair)
    (algorithm : aws_rsa_signing_algorithm) (digest signature : List Nat)
    (pub_key : Nat) (alg : SecKeyAlgorithm)
    (hgood : key_pair.base.good = true)
    (hpub : key_pair.pub_key_ref = some pub_key)
    (hmap : s_map_rsa_signing_algo_to_sec algorithm macos_10_13_available =
      CalResult.ok alg)
    (hsupp : P.isAlgorithmSupported (some pub_key) .verify alg = true) :
    (P.verifySignature pub_key alg digest signature = Except.ok false →
      darwin_verify P macos_10_13_available key_pair algorithm digest signature =
        CalResult.fail (some AwsError.signatureValidationFailed)) ∧
    (P.verifySignature pub_key alg digest signature = Except.error () →
      darwin_verify P macos_10_13_available key_pair algorithm digest signature =
        CalResult.fail (some AwsError.sysCallFailure)) ∧
    (P.verifySignature pub_key alg digest signature = Except.ok true →
      darwin_verify P macos_10_13_available key_pair algorithm digest signature =
        CalResult.ok ()) := by
  refine ⟨fun hv => ?_, fun hv => ?_, fun hv => ?_⟩ <;>
    simp [darwin_verify, aws_rsa_key_pair_verify_signature, s_rsa_verify,
      hgood, hpub, hmap, hsupp, hv]

/-- A provider that reports a signature mismatch on every verify call. -/
def verify_mismatch_provider : SecProvider :=
  ⟨fun _ _ _ => true, fun _ _ _ => Except.ok [0], fun _ _ _ => Except.ok [0],
   fun _ _ _ _ => Except.ok false⟩

/-- A valid key pair state with both provider handles present. -/
def valid_sec_key_pair : sec_rsa_key_pair := ⟨⟨2048, [], [48], true⟩, some 2, some 1⟩

/-- Witness for c9_verify_error_surfacing: a mismatching signature yields
SignatureValidationFailed. -/
theorem c9_verify_error_surfacing_witness :
    darwin_verify verify_mismatch_provider true valid_sec_key_pair
        .AWS_CAL_RSA_SIGNATURE_PKCS1_5_SHA256 [1] [2] =
      CalResult.fail (some AwsError.signatureValidationFailed) :=
  (c9_verify_error_surfacing verify_mismatch_provider true valid_sec_key_pair
      .AWS_CAL_RSA_SIGNATURE_PKCS1_5_SHA256 [1] [2] 1
      .rsaSignatureDigestPKCS1v15SHA256 rfl rfl rfl rfl).1 rfl

/-- A version content that passes the mapper's check (length 1, first byte 0)
is exactly the single byte 0. -/
lemma version_ok_eq (v : List Nat) (h : ¬ (v.length ≠ 1 ∨ v.headD 0 ≠ 0)) :
    v = [0] := by
  push_neg at h
  match v with
  | [] => simp at h
  | [b] =>
    simp at h
    simp [h]
  | b :: b2 :: t => simp at h

/-- Evaluation of the mapper on a stream whose second node is an INTEGER with
content failing the version check. -/
lemma load_private_version_bad (s v : List Nat) (rest : List DerNode)
    (hv : v.length ≠ 1 ∨ v.headD 0 ≠ 0) :
    aws_der_decoder_load_private_rsa_pkcs1
        (⟨DerTag.SEQUENCE, s⟩ :: ⟨DerTag.INTEGER, v⟩ :: rest) =
      CalResult.fail (some AwsError.unsupportedKeyFormat) := by
  simp only [aws_der_decoder_load_private_rsa_pkcs1, der_read_integer,
    aws_der_decoder_tlv_integer]
  simp
  intro h1 h2
  exfalso
  rcases hv with h | h
  · exact h h1
  · rcases v with _ | ⟨b, t⟩
    · exact h rfl
    · simp at h2
      subst h2
      exact h rfl

/-- Evaluation of the mapper on a well-shaped stream with version byte 0. -/
lemma load_private_pkcs1_stream_ok (s mo ex pr q1 q2 x1 x2 co : List Nat)
    (rest : List DerNode) :
    aws_der_decoder_load_private_rsa_pkcs1
        (private_pkcs1_stream s [0] mo ex pr q1 q2 x1 x2 co rest) =
      CalResult.ok ⟨0, mo, ex, pr, q1, q2, x1, x2, co⟩ := rfl

/-- Complete case analysis of the private-key mapper: either the stream has
the accepted shape and the mapper succeeds with the fields in order, or the
stream reaches the version check with a bad version and the mapper fails with
UnsupportedKeyFormat, or the mapper fails with MalformedEncoding. -/
lemma load_private_trichotomy (d : List DerNode) :
    (∃ s mo ex pr q1 q2 x1 x2 co rest,
        d = private_pkcs1_stream s [0] mo ex pr q1 q2 x1 x2 co rest ∧
        aws_der_decoder_load_private_rsa_pkcs1 d =
          CalResult.ok ⟨0, mo, ex, pr, q1, q2, x1, x2, co⟩) ∨
    ((∃ s v rest,
        d = ⟨DerTag.SEQUENCE, s⟩ :: ⟨DerTag.INTEGER, v⟩ :: rest ∧
          (v.length ≠ 1 ∨ v.headD 0 ≠ 0)) ∧
        aws_der_decoder_load_private_rsa_pkcs1 d =
          CalResult.fail (some AwsError.unsupportedKeyFormat)) ∨
    aws_der_decoder_load_private_rsa_pkcs1 d =
      CalResult.fail (some AwsError.malformedAsn1Encountered) := by
  rcases d with _ | ⟨⟨t0, c0⟩, d⟩
  · exact Or.inr (Or.inr rfl)
  cases t0 with
  | INTEGER => exact Or.inr (Or.inr rfl)
  | other t => exact Or.inr (Or.inr rfl)
  | SEQUENCE =>
    rcases d with _ | ⟨⟨t1, c1⟩, d⟩
    · exact Or.inr (Or.inr rfl)
    cases t1 with
    | SEQUENCE => exact Or.inr (Or.inr rfl)
    | other t => exact Or.inr (Or.inr rfl)
    | INTEGER =>
      by_cases hv : c1.length ≠ 1 ∨ c1.headD 0 ≠ 0
      · exact Or.inr (Or.inl ⟨⟨c0, c1, d, rfl, hv⟩,
          load_private_version_bad c0 c1 d hv⟩)
      · have hc1 : c1 = [0] := version_ok_eq c1 hv
        subst hc1
        rcases d with _ | ⟨⟨t2, c2⟩, d⟩
        · exact Or.inr (Or.inr rfl)
        cases t2 with
        | SEQUENCE => exact Or.inr (Or.inr rfl)
        | other t => exact Or.inr (Or.inr rfl)
        | INTEGER =>
          rcases d with _ | ⟨⟨t3, c3⟩, d⟩
          · exact Or.inr (Or.inr rfl)
          cases t3 with
          | SEQUENCE => exact Or.inr (Or.inr rfl)
          | other t => exact Or.inr (Or.inr rfl)
          | INTEGER =>
            rcases d with _ | ⟨⟨t4, c4⟩, d⟩
            · exact Or.inr (Or.inr rfl)
            cases t4 with
            | SEQUENCE => exact Or.inr (Or.inr rfl)
            | other t => exact Or.inr (Or.inr rfl)
            | INTEGER =>
              rcases d with _ | ⟨⟨t5, c5⟩, d⟩
              · exact Or.inr (Or.inr rfl)
              cases t5 with
              | SEQUENCE => exact Or.inr (Or.inr rfl)
              | other t => exact Or.inr (Or.inr rfl)
              | INTEGER =>
                rcases d with _ | ⟨⟨t6, c6⟩, d⟩
                · exact Or.inr (Or.inr rfl)
                cases t6 with
                | SEQUENCE => exact Or.inr (Or.inr rfl)
                | other t => exact Or.inr (Or.inr rfl)
                | INTEGER =>
                  rcases d with _ | ⟨⟨t7, c7⟩, d⟩
                  · exact Or.inr (Or.inr rfl)
                  cases t7 with
                  | SEQUENCE => exact Or.inr (Or.inr rfl)
                  | other t => exact Or.inr (Or.inr rfl)
                  | INTEGER =>
                    rcases d with _ | ⟨⟨t8, c8⟩, d⟩
                    · exact Or.inr (Or.inr rfl)
                    cases t8 with
                    | SEQUENCE => exact Or.inr (Or.inr rfl)
                    | other t => exact Or.inr (Or.inr rfl)
                    | INTEGER =>
                      rcases d with _ | ⟨⟨t9, c9⟩, d⟩
                      · exact Or.inr (Or.inr rfl)
                      cases t9 with
                      | SEQUENCE => exact Or.inr (Or.inr rfl)
                      | other t => exact Or.inr (Or.inr rfl)
                      | INTEGER =>
                        exact Or.inl ⟨c0, c2, c3, c4, c5, c6, c7, c8, c9, d, rfl,
                          load_private_pkcs1_stream_ok c0 c2 c3 c4 c5 c6 c7 c8 c9 d⟩

/-- C4: the private-key PKCS1 mapper succeeds exactly when the token stream
presents a SEQUENCE followed by nine INTEGER nodes in the fixed order
(version, modulus, publicExponent, privateExponent, prime1, prime2,
exponent1, exponent2, coefficient) with the version encoded as the single
byte 0; it fails with UnsupportedKeyFormat exactly when the SEQUENCE and the
version INTEGER are present but the version has encoded length other than 1
or value other than 0; every other failure - an expected node absent or of
the wrong tag - is MalformedEncoding. -/
theorem c4_private_pkcs1_mapper_characterization (d : List DerNode) :
    ((∃ out, aws_der_decoder_load_private_rsa_pkcs1 d = CalResult.ok out) ↔
      (∃ s mo ex pr q1 q2 x1 x2 co rest,
        d = private_pkcs1_stream s [0] mo ex pr q1 q2 x1 x2 co rest)) ∧
    (aws_der_decoder_load_private_rsa_pkcs1 d =
        CalResult.fail (some AwsError.unsupportedKeyFormat) ↔
      (∃ s v rest, d = ⟨DerTag.SEQUENCE, s⟩ :: ⟨DerTag.INTEGER, v⟩ :: rest ∧
        (v.length ≠ 1 ∨ v.headD 0 ≠ 0))) ∧
    (∀ e, aws_der_decoder_load_private_rsa_pkcs1 d = CalResult.fail e →
      e = some AwsError.malformedAsn1Encountered ∨
        e = some AwsError.unsupportedKeyFormat) := by
  have tri := load_private_trichotomy d
  refine ⟨⟨fun hok => ?_, fun hs => ?_⟩, ⟨fun hf => ?_, fun hs => ?_⟩, fun e he => ?_⟩
  · rcases hok with ⟨out, hout⟩
    rcases tri with ⟨s, mo, ex, pr, q1, q2, x1, x2, co, rest, hd, hload⟩ |
      ⟨hshape, hload⟩ | hload
    · exact ⟨s, mo, ex, pr, q1, q2, x1, x2, co, rest, hd⟩
    · rw [hload] at hout; exact absurd hout (by simp)
    · rw [hload] at hout; exact absurd hout (by simp)
  · rcases hs with ⟨s, mo, ex, pr, q1, q2, x1, x2, co, rest, hd⟩
    subst hd
    exact ⟨_, load_private_pkcs1_stream_ok s mo ex pr q1 q2 x1 x2 co rest⟩
  · rcases tri with ⟨s, mo, ex, pr, q1, q2, x1, x2, co, rest, hd, hload⟩ |
      ⟨hshape, hload⟩ | hload
    · rw [hload] at hf; exact absurd hf (by simp)
    · exact hshape
    · rw [hload] at hf; exact absurd hf (by simp)
  · rcases hs with ⟨s, v, rest, hd, hv⟩
    subst hd
    exact load_private_version_bad s v rest hv
  · rcases tri with ⟨s, mo, ex, pr, q1, q2, x1, x2, co, rest, hd, hload⟩ |
      ⟨hshape, hload⟩ | hload
    · rw [hload] at he; exact absurd he (by simp)
    · rw [hload] at he
      exact Or.inr (CalResult.fail.inj he).symm
    · rw [hload] at he
      exact Or.inl (CalResult.fail.inj he).symm

/-- Witness for c4_private_pkcs1_mapper_characterization: a well-formed
stream is accepted; a version byte of 1 yields UnsupportedKeyFormat; dropping
the last INTEGER node (the coefficient) yields MalformedEncoding. -/
theorem c4_private_pkcs1_mapper_characterization_witness :
    (∃ out, aws_der_decoder_load_private_rsa_pkcs1
        (private_pkcs1_stream [48] [0] [197] [1, 0, 1] [83] [11] [13] [7] [5] [3] []) =
      CalResult.ok out) ∧
    aws_der_decoder_load_private_rsa_pkcs1
        [⟨DerTag.SEQUENCE, [48]⟩, ⟨DerTag.INTEGER, [1]⟩] =
      CalResult.fail (some AwsError.unsupportedKeyFormat) ∧
    aws_der_decoder_load_private_rsa_pkcs1
        [⟨DerTag.SEQUENCE, [48]⟩, ⟨DerTag.INTEGER, [0]⟩, ⟨DerTag.INTEGER, [197]⟩,
          ⟨DerTag.INTEGER, [1, 0, 1]⟩, ⟨DerTag.INTEGER, [83]⟩, ⟨DerTag.INTEGER, [11]⟩,
          ⟨DerTag.INTEGER, [13]⟩, ⟨DerTag.INTEGER, [7]⟩, ⟨DerTag.INTEGER, [5]⟩] =
      CalResult.fail (some AwsError.malformedAsn1Encountered) := by
  refine ⟨(c4_private_pkcs1_mapper_characterization _).1.mpr
      ⟨[48], [197], [1, 0, 1], [83], [11], [13], [7], [5], [3], [], rfl⟩,
    (c4_private_pkcs1_mapper_characterization _).2.1.mpr
      ⟨[48], [1], [], rfl, by decide⟩,
    rfl⟩
